import Mathlib

/-!
Verification of the EDISU Mensa bot's menu-extraction pipeline
(`src/instapi.py`, `src/app.py`, `src/ocr_utils.py`).

The Python code is shallowly embedded: dictionaries become association
lists, stateful methods become explicit state-passing functions, and the
results of I/O operations (Instagram API calls, OCR, HTTP downloads) are
supplied through explicit environment records.  Non-ASCII string literals
in the Python source are mojibake (the file stores, e.g., U+00C3 U+00B9
where "ù" was intended); the embedding reproduces those literals
codepoint-for-codepoint using escape sequences.
-/

namespace EdisuMensa

/-- Association-list lookup, modelling Python `dict.get` /
`key in dict` on an insertion-ordered dict. -/
def alGet {α : Type} : List (String × α) → String → Option α
  | [], _ => none
  | (k, v) :: rest, key => if k == key then some v else alGet rest key

/-- Association-list update, modelling Python `dict[key] = value`
(in-place update of an existing key, append otherwise). -/
def alSet {α : Type} : List (String × α) → String → α → List (String × α)
  | [], key, v => [(key, v)]
  | (k, w) :: rest, key, v =>
    if k == key then (k, v) :: rest else (k, w) :: alSet rest key v

/-- A per-cafeteria meal map, e.g. `{"pranzo": ..., "cena": ...}`. -/
abbrev MealMap := List (String × String)

/-- The menu table: cafeteria name → meal type → menu string. -/
abbrev Table := List (String × MealMap)

/-- ASCII lower-casing of a string (Python `str.lower` restricted to the
ASCII inputs exercised here; `Char.toLower` only maps `A`-`Z`). -/
def strLower (s : String) : String := String.mk (s.data.map Char.toLower)

/-- ASCII upper-casing of a string (Python `str.upper` on ASCII). -/
def strUpper (s : String) : String := String.mk (s.data.map Char.toUpper)

/-- Python `str.capitalize`: first character upper-cased, rest lower-cased. -/
def strCapitalize (s : String) : String :=
  match s.data with
  | [] => ""
  | c :: rest => String.mk (c.toUpper :: rest.map Char.toLower)

/-- Auxiliary scanner: is `pat` a contiguous sublist of the character list? -/
def subAux (pat : List Char) : List Char → Bool
  | [] => pat.isEmpty
  | c :: cs => pat.isPrefixOf (c :: cs) || subAux pat cs

/-- Python's `pat in s` substring test. -/
def strContains (s pat : String) : Bool := subAux pat.data s.data

/-- Python `str.strip()` (defined structurally on the character list so
that closed evaluations reduce in the kernel). -/
def strTrim (s : String) : String :=
  String.mk (((s.data.dropWhile Char.isWhitespace).reverse.dropWhile
    Char.isWhitespace).reverse)

/-- Worker for `split('\n')`. -/
def splitNlAux : List Char → List Char → List (List Char)
  | [], cur => [cur.reverse]
  | c :: cs, cur =>
    if c == '\n' then cur.reverse :: splitNlAux cs [] else splitNlAux cs (c :: cur)

/-- Python `text.split('\n')`. -/
def splitNl (s : String) : List String := (splitNlAux s.data []).map String.mk

/-- Python `"\n".join(lines)`. -/
def joinLines : List String → String
  | [] => ""
  | [l] => l
  | l :: rest => l ++ "\n" ++ joinLines rest

/-- Python `[line.strip() for line in text.split('\n') if line.strip()]`. -/
def cleanLines (text : String) : List String :=
  ((splitNl text).map strTrim).filter (fun l => l ≠ "")

/-- Zero-padded two-digit rendering, as produced by `strftime("%d")`/`("%m")`. -/
def pad2 (n : Nat) : String := if n < 10 then "0" ++ toString n else toString n

/-- A calendar date as used by the pipeline: `ord` is the linear day index
used for equality comparisons between dates (`date` objects in Python),
while `day`/`month`/`year` are the components used to render date strings. -/
structure SimpleDate where
  ord : Int
  day : Nat
  month : Nat
  year : Nat
  deriving DecidableEq, Repr

/-! ### Static configuration from `InstApi.__init__` -/

/-- `self.cafeterias`: the 4 canonical cafeteria names, in order. -/
def cafeterias : List String :=
  ["Principe Amedeo", "Castelfidardo", "Paolo Borsellino", "Perrone"]

/-- `self.name_mapping`: legacy cafeteria name → canonical name. -/
def nameMapping : List (String × String) :=
  [("Central", "Principe Amedeo"),
   ("Sobrero", "Paolo Borsellino"),
   ("Corso Duca", "Perrone")]

/-- `self.cafeteria_keywords`: OCR alias keywords per cafeteria
(in dict insertion order). -/
def cafeteriaKeywords : List (String × List String) :=
  [("Principe Amedeo", ["principe amedeo", "central", "centro", "via principe"]),
   ("Castelfidardo", ["castelfidardo", "castel", "politecnico", "politecnico castelfidardo"]),
   ("Paolo Borsellino", ["borsellino", "sobrero", "paolo borsellino"]),
   ("Perrone", ["perrone", "novara", "corso duca", "corso"])]

/-- Menu sections.  The Python code uses plain strings; the fixed closed
set is captured as an inductive type. -/
inductive Sect where
  | primi
  | secondi
  | contorni
  | dessert
  deriving DecidableEq, Repr

/-- `self.section_headers`, in dict insertion order. -/
def sectionHeaders : List (Sect × List String) :=
  [(Sect.primi, ["primi piatti", "primi", "primo piatto", "primo"]),
   (Sect.secondi, ["secondi piatti", "secondi", "secondo piatto", "secondo"]),
   (Sect.contorni, ["contorni", "contorno"]),
   (Sect.dessert, ["dessert", "dolci", "frutta", "dolce"])]

/-- `section.upper()` for the three parsed section names. -/
def sectName : Sect → String
  | Sect.primi => "primi"
  | Sect.secondi => "secondi"
  | Sect.contorni => "contorni"
  | Sect.dessert => "dessert"

/-- `self.meal_keywords`, in dict insertion order. -/
def mealKeywords : List (String × List String) :=
  [("pranzo", ["pranzo", "lunch", "mezzogiorno"]),
   ("cena", ["cena", "dinner", "sera"])]

/-- `_get_section_emoji`: the emoji strings exactly as stored
(mojibake) in the source. -/
def getSectionEmoji : Sect → String
  | Sect.primi => "ðŸ"
  | Sect.secondi => "ðŸ—"
  | Sect.contorni => "ðŸ¥—"
  | Sect.dessert => "ðŸ°"

/-- The bullet prefix used for dish lines (mojibake of a bullet point). -/
def bullet : String := "â€¢"

/-- The mojibake rendering of the word with a grave accent
(`"men" + U+00C3 U+00B9` as stored in the source). -/
def menuAccented : String := "menÃ¹"

/-! ### Date rendering and date-token extraction (`_filter_current_day_stories`) -/

/-- English month names as produced by `strftime("%B")` in the C locale. -/
def englishMonths : List String :=
  ["January", "February", "March", "April", "May", "June",
   "July", "August", "September", "October", "November", "December"]

/-- `italian_months` from the source. -/
def italianMonths : List String :=
  ["Gennaio", "Febbraio", "Marzo", "Aprile", "Maggio", "Giugno",
   "Luglio", "Agosto", "Settembre", "Ottobre", "Novembre", "Dicembre"]

/-- Python `s[:3]`. -/
def take3 (s : String) : String := String.mk (s.data.take 3)

/-- `today_str_formats`: the textual renderings of today's date built in
`_filter_current_day_stories` (8 `strftime` variants plus 3 appended
Italian-month variants, in order). -/
def todayStrFormats (d : SimpleDate) : List String :=
  let eng := englishMonths.getD (d.month - 1) ""
  let ita := italianMonths.getD (d.month - 1) ""
  [pad2 d.day ++ "/" ++ pad2 d.month ++ "/" ++ toString d.year,
   pad2 d.day ++ "-" ++ pad2 d.month ++ "-" ++ toString d.year,
   pad2 d.day ++ "." ++ pad2 d.month ++ "." ++ toString d.year,
   pad2 d.day ++ " " ++ eng ++ " " ++ toString d.year,
   pad2 d.day ++ " " ++ take3 eng ++ " " ++ toString d.year,
   pad2 d.day ++ "/" ++ pad2 d.month,
   pad2 d.day ++ "-" ++ pad2 d.month,
   pad2 d.day ++ "." ++ pad2 d.month,
   toString d.day ++ " " ++ ita ++ " " ++ toString d.year,
   toString d.day ++ " " ++ take3 ita ++ " " ++ toString d.year,
   toString d.day ++ " " ++ ita]

/-- A word character in the sense of the regex `\b` boundary (`\w`). -/
def isWordChar (c : Char) : Bool := c.isAlpha || c.isDigit || c == '_'

/-- The date separators `[/.\-]` of the regex patterns. -/
def isDateSep (c : Char) : Bool := c == '/' || c == '.' || c == '-'

/-- A word boundary holds before the match when the preceding character
(if any) is not a word character. -/
def boundaryBefore : Option Char → Bool
  | none => true
  | some c => !isWordChar c

/-- A word boundary holds after the match when the next character
(if any) is not a word character. -/
def boundaryAfter : List Char → Bool
  | [] => true
  | c :: _ => !isWordChar c

/-- Greedily take a run of characters satisfying `p`
(returns the run and the rest). -/
def takeRun (p : Char → Bool) (l : List Char) : List Char × List Char :=
  (l.takeWhile p, l.dropWhile p)

/-- Match `\d{lo,hi}` immediately followed by a character outside the
digit class: the greedy run must have length in `[lo, hi]` (all shorter
backtracking alternatives leave a digit as the next character). -/
def digitRun (lo hi : Nat) (l : List Char) : Option (List Char × List Char) :=
  let (run, rest) := takeRun Char.isDigit l
  if lo ≤ run.length ∧ run.length ≤ hi then some (run, rest) else none

/-- Match regex `\b\d{1,2}[/.\-]\d{1,2}[/.\-]\d{2,4}\b` at the head of `l`. -/
def matchDmy (prev : Option Char) (l : List Char) : Option (List Char × List Char) :=
  if !boundaryBefore prev then none else
  match digitRun 1 2 l with
  | none => none
  | some (d1, r1) =>
    match r1 with
    | [] => none
    | s1 :: r2 =>
      if !isDateSep s1 then none else
      match digitRun 1 2 r2 with
      | none => none
      | some (d2, r3) =>
        match r3 with
        | [] => none
        | s2 :: r4 =>
          if !isDateSep s2 then none else
          match digitRun 2 4 r4 with
          | none => none
          | some (d3, r5) =>
            if boundaryAfter r5 then some (d1 ++ s1 :: d2 ++ s2 :: d3, r5) else none

/-- Match regex `\b\d{1,2}[/.\-]\d{1,2}\b` at the head of `l`. -/
def matchDm (prev : Option Char) (l : List Char) : Option (List Char × List Char) :=
  if !boundaryBefore prev then none else
  match digitRun 1 2 l with
  | none => none
  | some (d1, r1) =>
    match r1 with
    | [] => none
    | s1 :: r2 =>
      if !isDateSep s1 then none else
      match digitRun 1 2 r2 with
      | none => none
      | some (d2, r3) =>
        if boundaryAfter r3 then some (d1 ++ s1 :: d2, r3) else none

/-- Match a run of `[a-zA-Z]+` followed by the given boundary condition. -/
def letterRun (l : List Char) : Option (List Char × List Char) :=
  let (run, rest) := takeRun (fun c => c.isAlpha) l
  if run.length ≥ 1 then some (run, rest) else none

/-- Match a run of whitespace `\s+`. -/
def spaceRun (l : List Char) : Option (List Char × List Char) :=
  let (run, rest) := takeRun Char.isWhitespace l
  if run.length ≥ 1 then some (run, rest) else none

/-- Match regex `\b\d{1,2}\s+[a-zA-Z]+\s+\d{2,4}\b` at the head of `l`. -/
def matchDMonY (prev : Option Char) (l : List Char) : Option (List Char × List Char) :=
  if !boundaryBefore prev then none else
  match digitRun 1 2 l with
  | none => none
  | some (d1, r1) =>
    match spaceRun r1 with
    | none => none
    | some (w1, r2) =>
      match letterRun r2 with
      | none => none
      | some (m, r3) =>
        match spaceRun r3 with
        | none => none
        | some (w2, r4) =>
          match digitRun 2 4 r4 with
          | none => none
          | some (y, r5) =>
            if boundaryAfter r5 then some (d1 ++ w1 ++ m ++ w2 ++ y, r5) else none

/-- Match regex `\b\d{1,2}\s+[a-zA-Z]+\b` at the head of `l`. -/
def matchDMon (prev : Option Char) (l : List Char) : Option (List Char × List Char) :=
  if !boundaryBefore prev then none else
  match digitRun 1 2 l with
  | none => none
  | some (d1, r1) =>
    match spaceRun r1 with
    | none => none
    | some (w1, r2) =>
      match letterRun r2 with
      | none => none
      | some (m, r3) =>
        if boundaryAfter r3 then some (d1 ++ w1 ++ m, r3) else none

/-- `re.findall` for one of the above patterns: scan left to right,
emitting non-overlapping matches. -/
def findAllAux (matcher : Option Char → List Char → Option (List Char × List Char)) :
    Nat → Option Char → List Char → List String
  | 0, _, _ => []
  | _, _, [] => []
  | fuel + 1, prev, c :: cs =>
    match matcher prev (c :: cs) with
    | some (m, rest) =>
      String.mk m :: findAllAux matcher fuel (m.getLast? <|> some c) rest
    | none => findAllAux matcher fuel (some c) cs

/-- `re.findall(pattern, text)` for a given pattern matcher. -/
def findAll (matcher : Option Char → List Char → Option (List Char × List Char))
    (text : String) : List String :=
  findAllAux matcher (text.data.length + 1) none text.data

/-- `all_dates`: the concatenation of the matches of the four
`date_patterns`, in pattern order. -/
def extractAllDates (text : String) : List String :=
  findAll matchDmy text ++ findAll matchDm text ++
  findAll matchDMonY text ++ findAll matchDMon text

/-- A separator for `re.split(r'[/\-\.\s]+', ...)`. -/
def isSplitSep (c : Char) : Bool := isDateSep c || c.isWhitespace

/-- Worker for `re.split(r'[/\-\.\s]+', s)`: splits on maximal runs of
separators (consecutive separators produce no empty pieces). -/
def splitRunsGo : List Char → List Char → Bool → List (List Char)
  | [], cur, _ => [cur.reverse]
  | c :: cs, cur, lastSep =>
    if isSplitSep c then
      if lastSep then splitRunsGo cs cur true
      else cur.reverse :: splitRunsGo cs [] true
    else splitRunsGo cs (c :: cur) false

/-- `re.split(r'[/\-\.\s]+', s)`. -/
def splitDateParts (s : String) : List String :=
  (splitRunsGo s.data [] false).map String.mk

/-- Python `str.isdigit` (non-empty and all digits). -/
def strIsDigit (s : String) : Bool := s ≠ "" && s.data.all Char.isDigit

/-- Python `int(s)` on a digit string. -/
def strToNat (s : String) : Nat := s.data.foldl (fun a c => a * 10 + (c.toNat - 48)) 0

/-- The inner Italian-month loop: some 1-based month index `i` whose
lower-cased name contains `monthPart` equals today's month. -/
def italianMonthMatch (monthPart : String) (month : Nat) : Bool :=
  (List.range 12).any (fun j =>
    strContains (strLower (italianMonths.getD j "")) (strLower monthPart) && (j + 1 == month))

/-- One extracted date token matches today's day and month
(the `for date_str in all_dates` body). -/
def tokenMatchesToday (d : SimpleDate) (tok : String) : Bool :=
  match splitDateParts tok with
  | p0 :: p1 :: _ =>
    strIsDigit p0 && (strToNat p0 == d.day) &&
      (if strIsDigit p1 then strToNat p1 == d.month
       else italianMonthMatch p1 d.month)
  | _ => false

/-! ### Stories and the current-day filter -/

/-- A story as consumed by the pipeline.  `storyDate` is the resolved
upload date (the Python code probes `taken_at` / `created_time` /
`imported_taken_at` / a `pk`-embedded timestamp; all of that collapses to
an optional date).  `ocrText` is the deterministic result of
`_extract_text_from_story` for this story (the OCR cache makes repeated
extractions of one story return the same text); the empty string models a
failed extraction. -/
structure Story where
  storyDate : Option Int
  ocrText : String
  deriving DecidableEq, Repr

/-- `menu_indicators` of `_filter_current_day_stories`. -/
def filterMenuIndicators : List String :=
  [menuAccented, "menu", "primo", "pranzo", "cena", "mensa"]

/-- `has_menu`: the preview text is non-empty and contains a
menu-indicator keyword (case-insensitively). -/
def hasMenuIndicatorText (text : String) : Bool :=
  text ≠ "" && filterMenuIndicators.any (fun k => strContains (strLower text) k)

/-- The text contains one of today's rendered date formats,
case-insensitively. -/
def containsTodayFormat (d : SimpleDate) (text : String) : Bool :=
  (todayStrFormats d).any (fun f => strContains (strLower text) (strLower f))

/-- Some regex-extracted date token of the text matches today's day and
month. -/
def hasMatchingDateToken (d : SimpleDate) (text : String) : Bool :=
  (extractAllDates text).any (tokenMatchesToday d)

/-- `_filter_current_day_stories`, embedded with the source's
control flow: unknown date → keep; today → keep; yesterday → keep only
when the eagerly extracted text has a menu indicator and either a
rendered form of today's date or a matching extracted date token;
anything else → drop. -/
def filterCurrentDayStories (d : SimpleDate) : List Story → List Story
  | [] => []
  | s :: rest =>
    match s.storyDate with
    | none => s :: filterCurrentDayStories d rest
    | some sd =>
      if sd = d.ord then s :: filterCurrentDayStories d rest
      else if sd = d.ord - 1 then
        let preview := s.ocrText
        if hasMenuIndicatorText preview then
          if containsTodayFormat d preview || hasMatchingDateToken d preview then
            s :: filterCurrentDayStories d rest
          else filterCurrentDayStories d rest
        else filterCurrentDayStories d rest
      else filterCurrentDayStories d rest

/-- The per-story retention rule stated by the specification. -/
def keepStory (d : SimpleDate) (s : Story) : Bool :=
  match s.storyDate with
  | none => true
  | some sd =>
    if sd = d.ord then true
    else if sd = d.ord - 1 then
      hasMenuIndicatorText s.ocrText &&
        (containsTodayFormat d s.ocrText || hasMatchingDateToken d s.ocrText)
    else false

/-! ### Classification (`_identify_meal_type`, `_identify_cafeteria_from_text`) -/

/-- `_identify_meal_type`: first matching meal keyword, default `"pranzo"`. -/
def identifyMealType (text : String) : String :=
  let textLower := strLower text
  let rec go : List (String × List String) → String
    | [] => "pranzo"
    | (meal, kws) :: rest =>
      if kws.any (fun k => strContains textLower k) then meal else go rest
  go mealKeywords

/-- First cafeteria whose alias keywords contain a match in `s`
(the nested `for cafeteria ... for keyword ...` loops). -/
def firstKeywordCafeteria (s : String) : Option String :=
  let rec go : List (String × List String) → Option String
    | [] => none
    | (caf, kws) :: rest =>
      if kws.any (fun k => strContains s k) then some caf else go rest
  go cafeteriaKeywords

/-- `menu_indicators` of `_identify_cafeteria_from_text`. -/
def identifyMenuIndicators : List String :=
  ["primi piatti", "secondi piatti", "contorni", menuAccented, "pranzo", "cena"]

/-- The `"Mensa"`-header scan over the first 3 non-empty lines: the first
line containing `"mensa"` together with an alias keyword decides. -/
def mensaHeaderScan : List String → Option String
  | [] => none
  | line :: rest =>
    let lineLower := strLower line
    if strContains lineLower "mensa" then
      match firstKeywordCafeteria lineLower with
      | some caf => some caf
      | none => mensaHeaderScan rest
    else mensaHeaderScan rest

/-- `_identify_cafeteria_from_text text existing_menus`: header scan on the
first 3 non-empty lines, then whole-text alias scan, then the
menu-indicator fallback that assigns the first cafeteria whose name is
not a key of `existing_menus`. -/
def identifyCafeteriaFromText (text : String) (existingMenus : Table) : Option String :=
  if text = "" then none else
  let lines := cleanLines text
  let textLower := strLower text
  match mensaHeaderScan (lines.take 3) with
  | some caf => some caf
  | none =>
    match firstKeywordCafeteria textLower with
    | some caf => some caf
    | none =>
      if identifyMenuIndicators.any (fun k => strContains textLower k) then
        cafeterias.findSome? (fun caf =>
          match alGet existingMenus caf with
          | some _ => none
          | none => some caf)
      else none

/-! ### Menu text formatting (`_process_menu_text`) -/

/-- The boilerplate keywords whose presence causes a line to be skipped. -/
def boilerplateKeywords : List String :=
  ["mensa", menuAccented, "menu", "data", "edisu", "piemonte"]

/-- A line (lower-cased) is boilerplate. -/
def isBoilerplateLine (lineLower : String) : Bool :=
  boilerplateKeywords.any (fun k => strContains lineLower k)

/-- The first section (in `section_headers` order) one of whose header
keywords occurs in the lower-cased line. -/
def sectionOfLine (lineLower : String) : Option Sect :=
  let rec go : List (Sect × List String) → Option Sect
    | [] => none
    | (sec, headers) :: rest =>
      if headers.any (fun h => strContains lineLower h) then some sec else go rest
  go sectionHeaders

/-- `sections_data`: the Python dict has exactly the keys
`primi`/`secondi`/`contorni` (no dessert key). -/
structure SecData where
  primi : List String
  secondi : List String
  contorni : List String
  deriving DecidableEq, Repr

def emptySecData : SecData := ⟨[], [], []⟩

/-- Append a dish line to a section's list.  Appending to `dessert` is the
identity: `current_section in sections_data` is false for `"dessert"`. -/
def addDish (data : SecData) : Sect → String → SecData
  | Sect.primi, l => { data with primi := data.primi ++ [l] }
  | Sect.secondi, l => { data with secondi := data.secondi ++ [l] }
  | Sect.contorni, l => { data with contorni := data.contorni ++ [l] }
  | Sect.dessert, _ => data

/-- One iteration of the line loop of `_process_menu_text`. -/
def sectStep (acc : Option Sect × SecData) (line : String) : Option Sect × SecData :=
  let lineLower := strTrim (strLower line)
  if isBoilerplateLine lineLower then acc
  else
    match sectionOfLine lineLower with
    | some sec => (some sec, acc.2)
    | none =>
      match acc.1 with
      | some cur =>
        if line.length > 3 then (acc.1, addDish acc.2 cur line) else acc
      | none => acc

/-- Dish-line rendering: lower-case the line, capitalize its first
character, prefix the bullet. -/
def renderDish (line : String) : String :=
  let lowered := strLower line
  let capped :=
    match lowered.data with
    | [] => lowered
    | c :: rest => String.mk (c.toUpper :: rest)
  bullet ++ " " ++ capped

/-- The emitted lines for one non-dessert section (header, dishes, blank). -/
def sectionBlock (sec : Sect) (dishes : List String) : List String :=
  if dishes.isEmpty then []
  else
    (getSectionEmoji sec ++ " *" ++ strUpper (sectName sec) ++ "* " ++ getSectionEmoji sec)
      :: dishes.map renderDish ++ [""]

/-- `strftime("%d/%m/%Y")`. -/
def dateDmy (d : SimpleDate) : String :=
  pad2 d.day ++ "/" ++ pad2 d.month ++ "/" ++ toString d.year

/-- The three fixed lines of the synthesized dessert section. -/
def dessertLines : List String :=
  [getSectionEmoji Sect.dessert ++ " *DESSERT* " ++ getSectionEmoji Sect.dessert,
   bullet ++ " Frutta fresca",
   bullet ++ " Dessert del giorno"]

/-- The final `sections_data` for a list of lines. -/
def collectedSecData (lines : List String) : SecData :=
  (lines.foldl sectStep (none, emptySecData)).2

/-- The body of `_process_menu_text` after line splitting: run the section
state machine and join the formatted lines. -/
def renderMenuLines (d : SimpleDate) (lines : List String) : String :=
  joinLines (("*" ++ dateDmy d ++ "*") :: "" ::
    (sectionBlock Sect.primi (collectedSecData lines).primi ++
     sectionBlock Sect.secondi (collectedSecData lines).secondi ++
     sectionBlock Sect.contorni (collectedSecData lines).contorni ++
     dessertLines))

/-- `_process_menu_text(text, cafeteria, meal_type)`; the cafeteria and
meal type only feed log messages and do not influence the output. -/
def processMenuText (d : SimpleDate) (text : String) (_cafeteria _mealType : String) : String :=
  renderMenuLines d (cleanLines text)

/-! ### Placeholder menus (`_generate_placeholder_menu`) -/

/-- The plate emoji as stored (mojibake, ends in U+00B8). -/
def plateEmoji : String := "ðŸ½ï¸"

/-- The warning emoji as stored (mojibake, contains U+00A0). -/
def warnEmoji : String := "âš ï¸"

/-- `menu_items`: canned dish lists per cafeteria and meal type. -/
def placeholderMenuItems : List (String × List (String × List String)) :=
  [("Principe Amedeo",
    [("pranzo",
      ["Pasta al pomodoro/Minestra di verdure",
       "Petto di pollo/Frittata alle verdure",
       "Insalata mista/Patate al forno"]),
     ("cena",
      ["Risotto ai funghi/Pasta all\x27arrabbiata",
       "Filetto di merluzzo/Formaggio",
       "Verdure grigliate/Insalata"])]),
   ("Castelfidardo",
    [("pranzo",
      ["Risotto con funghi/Pasta al pesto",
       "Pollo arrosto/Frittata di verdure",
       "Insalata verde/Patate arrosto"]),
     ("cena",
      ["Pasta alla carbonara/Zuppa di verdure",
       "Pesce grigliato/Pollo alla griglia",
       "Verdure al vapore/Insalata mista"])]),
   ("Paolo Borsellino",
    [("pranzo",
      ["Lasagna al forno/Minestrone",
       "Tacchino arrosto/Polpette di carne",
       "Spinaci saltati/Patate fritte"]),
     ("cena",
      ["Pasta al ragÃ¹/Risotto alla milanese",
       "Bistecca di manzo/Formaggio misto",
       "Verdure grigliate/Insalata di pomodori"])]),
   ("Perrone",
    [("pranzo",
      ["Penne al sugo/Riso con verdure",
       "Spezzatino di manzo/Frittata di patate",
       "Insalata mista/Carote al vapore"]),
     ("cena",
      ["Pasta al pesto/Zuppa di legumi",
       "Pollo alla griglia/Filetto di pesce",
       "Verdure al forno/Insalata verde"])])]

/-- `strftime("%Y-%m-%d")`. -/
def dateYmd (d : SimpleDate) : String :=
  toString d.year ++ "-" ++ pad2 d.month ++ "-" ++ pad2 d.day

/-- `_generate_placeholder_menu(cafeteria, meal_type, reason)`. -/
def generatePlaceholderMenu (d : SimpleDate) (cafeteria : String)
    (mealType : String := "pranzo") (reason : String := "") : String :=
  let mealDisplay := if mealType == "pranzo" then "PRANZO" else "CENA"
  let items :=
    match alGet ((alGet placeholderMenuItems cafeteria).getD []) mealType with
    | some l => l
    | none =>
      ["Primo piatto (" ++ mealDisplay ++ ")",
       "Secondo piatto (" ++ mealDisplay ++ ")",
       "Contorno (" ++ mealDisplay ++ ")"]
  let header := plateEmoji ++ " *MENSA " ++ strUpper cafeteria ++ "* " ++ plateEmoji ++ "\n"
  let subHeader := "*MenÃ¹ " ++ strCapitalize mealType ++ " - " ++ dateYmd d ++ "*\n\n"
  let reasonPart := if reason ≠ "" then warnEmoji ++ " " ++ reason ++ "\n\n" else ""
  let itemsPart := String.join (items.map (fun it => bullet ++ " " ++ it ++ "\n"))
  header ++ subHeader ++ reasonPart ++ itemsPart ++ bullet ++ " Frutta fresca/Dessert del giorno"

/-! ### Extraction pass and fetch orchestration
(`_extract_menus_from_stories`, `fetch_menus`) -/

/-- `menus[caf][meal] = v` on the nested dict. -/
def setCell (t : Table) (caf meal v : String) : Table :=
  alSet t caf (alSet ((alGet t caf).getD []) meal v)

/-- `menus[caf][meal]` (with empty-string default for absent keys). -/
def getCell (t : Table) (caf meal : String) : Option String :=
  (alGet t caf).bind (fun mm => alGet mm meal)

/-- The accumulator initialized by `_extract_menus_from_stories`:
every cafeteria present with both meals set to the empty string. -/
def emptyExtractedMenus : Table :=
  cafeterias.map (fun c => (c, [("pranzo", ""), ("cena", "")]))

/-- The body of the classification/merge loop for one story text. -/
def mergeStoryText (d : SimpleDate) (acc : Table) (text : String) : Table :=
  match identifyCafeteriaFromText text acc with
  | none => acc
  | some caf =>
    let mealType := identifyMealType text
    let menuText := processMenuText d text caf mealType
    let existing := (getCell acc caf mealType).getD ""
    if existing ≠ "" then
      if menuText.length > existing.length then setCell acc caf mealType menuText
      else acc
    else setCell acc caf mealType menuText

/-- `_extract_menus_from_stories`: initialize the accumulator, filter to
current-day stories, drop stories with no extracted text, then classify
and merge each surviving text. -/
def extractMenusFromStories (d : SimpleDate) (stories : List Story) : Table :=
  let current := filterCurrentDayStories d stories
  let storyTexts := current.filterMap (fun s =>
    if s.ocrText = "" then none else some s.ocrText)
  storyTexts.foldl (mergeStoryText d) emptyExtractedMenus

/-- The table `fetch_menus` starts from: each cafeteria with the
`"Menu pranzo not available"` / `"Menu cena not available"` sentinels. -/
def initMenusTable : Table :=
  cafeterias.map (fun c =>
    (c, [("pranzo", "Menu pranzo not available"), ("cena", "Menu cena not available")]))

/-- Overwrite both cells of every cafeteria using `f`. -/
def fillAllCells (t : Table) (f : String → String → String) : Table :=
  cafeterias.foldl (fun acc caf =>
    setCell (setCell acc caf "pranzo" (f caf "pranzo")) caf "cena" (f caf "cena")) t

/-- Environment of one `fetch_menus` invocation: flags and the results of
the external calls (`login`, `_get_user_id_with_retry`,
`_get_stories_with_retry`, `_check_tesseract`).  `fatalError` models an
unexpected exception raised inside the main `try` block. -/
structure FetchEnv where
  today : SimpleDate
  demo : Bool
  loggedIn : Bool
  loginSucceeds : Bool
  fatalError : Option String
  userId : Option String
  stories : List Story
  tesseractOk : Bool
  deriving Repr

/-- `fetch_menus`, embedded: placeholder table in demo mode; placeholder
table with a login-failed annotation when not logged in and login fails;
error-string table on an unexpected exception; the initial sentinel table
when the user id cannot be resolved; the `"No menu posted today"` table on
an empty story list; placeholders when the OCR engine is unavailable;
otherwise the extraction/merge path followed by the missing-cafeteria
check. -/
def fetchMenus (env : FetchEnv) : Table :=
  let menus := initMenusTable
  if env.demo then
    fillAllCells menus (fun c m => generatePlaceholderMenu env.today c m "")
  else if !env.loggedIn && !env.loginSucceeds then
    fillAllCells menus (fun c m =>
      generatePlaceholderMenu env.today c m "Instagram login failed. Using placeholder menu.")
  else
    match env.fatalError with
    | some e =>
      cafeterias.foldl (fun acc caf =>
        alSet acc caf
          [("pranzo", "Error fetching pranzo menu: " ++ e),
           ("cena", "Error fetching cena menu: " ++ e)]) menus
    | none =>
      match env.userId with
      | none => menus
      | some _ =>
        if env.stories.isEmpty then
          fillAllCells menus (fun _ _ => "No menu posted today")
        else if env.tesseractOk then
          let extracted := extractMenusFromStories env.today env.stories
          let menus1 := extracted.foldl (fun acc kv =>
            if (alGet acc kv.1).isSome then alSet acc kv.1 kv.2 else acc) menus
          let missing := cafeterias.filter (fun caf =>
            ((getCell menus1 caf "pranzo").getD "" == "Menu pranzo not available") &&
            ((getCell menus1 caf "cena").getD "" == "Menu cena not available"))
          missing.foldl (fun acc caf =>
            setCell (setCell acc caf "pranzo" (generatePlaceholderMenu env.today caf "pranzo" ""))
              caf "cena" (generatePlaceholderMenu env.today caf "cena" "")) menus1
        else
          fillAllCells menus (fun c m => generatePlaceholderMenu env.today c m "")

/-! ### Login with attempt ceiling and backoff (`InstApi.login`) -/

/-- The login-relevant fields of `InstApi`. -/
structure LoginState where
  attempts : Nat
  backoff : Nat
  demo : Bool
  loggedIn : Bool
  deriving DecidableEq, Repr

/-- Results of the external operations `login` may perform:
session reuse (file exists, load + validation succeeds), credential
retrieval, and the network login itself. -/
structure LoginEnv where
  sessionExists : Bool
  sessionValid : Bool
  credsOk : Bool
  netOk : Bool
  deriving DecidableEq, Repr

/-- Outcome of one `login()` call: return value, updated state, the list
of backoff sleeps performed, and whether a network login was attempted. -/
structure LoginOutcome where
  ok : Bool
  state : LoginState
  sleeps : List Nat
  networkLogin : Bool
  deriving DecidableEq, Repr

/-- `InstApi.login`, embedded: demo mode and an exhausted attempt counter
return failure immediately; otherwise the counter is incremented, a
backoff of `backoff * 2 ^ (attempts - 2)` is slept on retries, and the
session-reuse / credentials / network-login chain runs. -/
def login (st : LoginState) (env : LoginEnv) : LoginOutcome :=
  if st.demo then ⟨false, st, [], false⟩
  else if st.attempts ≥ 3 then ⟨false, st, [], false⟩
  else
    let st1 : LoginState := { st with attempts := st.attempts + 1 }
    let sleeps := if st1.attempts > 1 then [st.backoff * 2 ^ (st1.attempts - 2)] else []
    if env.sessionExists && env.sessionValid then
      ⟨true, { st1 with loggedIn := true }, sleeps, false⟩
    else if !env.credsOk then ⟨false, st1, sleeps, false⟩
    else if env.netOk then ⟨true, { st1 with loggedIn := true }, sleeps, true⟩
    else ⟨false, st1, sleeps, true⟩

/-! ### Host application (`App.fetch_daily_menus`, `App.get_menu`,
`InstApi.get_menu`) -/

/-- `menu_count`: cells that are non-empty and contain neither
`"not available"` nor `"Error"`. -/
def genuineCount (t : Table) : Nat :=
  (t.map (fun kv => (kv.2.filter (fun mv =>
    mv.2 ≠ "" && !strContains mv.2 "not available" && !strContains mv.2 "Error")).length)).sum

/-- The all-placeholder table the caller synthesizes when its stored
menus are empty after all retries. -/
def placeholderFallbackTable (d : SimpleDate) : Table :=
  cafeterias.map (fun caf =>
    (caf, [("pranzo", generatePlaceholderMenu d caf "pranzo" ""),
           ("cena", generatePlaceholderMenu d caf "cena" "")]))

/-- Loop of `App.fetch_daily_menus`.  `fetches i` is the outcome of the
`fetch_menus()` call in the iteration entered with `retry_count = i`
(`Except.error` models a raised exception).  Returns the final value of
`self.menus` together with the list of `time.sleep` delays performed. -/
def fetchDailyGo (d : SimpleDate) (fetches : Nat → Except String Table) :
    Nat → Nat → Table → Table × List Nat
  | 0, _, cur => (if cur.isEmpty then placeholderFallbackTable d else cur, [])
  | fuel + 1, i, cur =>
    match fetches i with
    | Except.ok t =>
      if genuineCount t > 0 then (t, [])
      else if i + 1 < 3 then
        let r := fetchDailyGo d fetches fuel (i + 1) t
        (r.1, 5 :: r.2)
      else fetchDailyGo d fetches fuel (i + 1) t
    | Except.error _ =>
      if i + 1 < 3 then
        let r := fetchDailyGo d fetches fuel (i + 1) cur
        (r.1, 5 :: r.2)
      else fetchDailyGo d fetches fuel (i + 1) cur

/-- `App.fetch_daily_menus`: up to 3 fetch attempts with a fixed 5-second
delay between consecutive attempts; a result with at least one genuine
menu is returned immediately; otherwise the stored menus (updated by each
non-raising attempt) are returned, replaced by synthesized placeholders
only when still empty. -/
def fetchDailyMenus (d : SimpleDate) (fetches : Nat → Except String Table)
    (initialMenus : Table) : Table × List Nat :=
  fetchDailyGo d fetches 3 0 initialMenus

/-- `App.get_menu`: when the stored menus are empty a fetch is triggered
first (`fetched` is the table that fetch would install); then the nested
`dict.get` lookups with the `"Menu not available for this cafeteria/meal"`
default.  Returns the menu string and the stored table after the call. -/
def appGetMenu (menus fetched : Table) (name mealType : String) : String × Table :=
  let t := if menus.isEmpty then fetched else menus
  let cafeteriaMenus := (alGet t name).getD []
  let menu := (alGet cafeteriaMenus mealType).getD "Menu not available for this cafeteria/meal"
  (menu, t)

/-- `InstApi.get_menu`: remap a legacy cafeteria name to its canonical
name, then delegate to `App.get_menu`. -/
def instApiGetMenu (menus fetched : Table) (name mealType : String) : String × Table :=
  let mapped :=
    match alGet nameMapping name with
    | some m => m
    | none => name
  appGetMenu menus fetched mapped mealType

/-! ### Per-story text extraction (`_extract_text_from_story`,
`extract_text_from_image_directly`) -/

/-- Results of the external operations of `_extract_text_from_story`:
the OCR-availability probe, a valid cache entry, the story's media URL
fields, the `story_download` call (`Except.error` = exception,
`Except.ok none` = falsy path), opening the downloaded file, the HTTP
download (`Except.ok` carries the status code), and the OCR run. -/
structure ExtractEnv where
  tesseractOk : Bool
  cachedText : Option String
  thumbnailUrl : Option String
  mediaUrls : List String
  storyDownload : Except String (Option String)
  fileOpen : Except String Unit
  httpStatus : Except String Nat
  ocrResult : Except String String
  deriving Repr

/-- The OCR step shared by both media paths. -/
def runOcr (env : ExtractEnv) : String :=
  match env.ocrResult with
  | Except.error _ => ""
  | Except.ok t => t

/-- The URL-download path (`requests.get` on `media_url`). -/
def viaHttp (env : ExtractEnv) : String :=
  match env.httpStatus with
  | Except.error _ => ""
  | Except.ok code => if code == 200 then runOcr env else ""

/-- `_extract_text_from_story`, embedded: every failure path — OCR
unavailable, failed download, non-200 response, failed file read, OCR
exception — yields the empty string; the surrounding `try`/`except`
also maps any exception to the empty string, so the function is total. -/
def extractTextFromStory (env : ExtractEnv) : String :=
  if !env.tesseractOk then ""
  else
    match env.cachedText with
    | some t => t
    | none =>
      match env.thumbnailUrl, env.mediaUrls with
      | some _, _ => viaHttp env
      | none, _ :: _ => viaHttp env
      | none, [] =>
        match env.storyDownload with
        | Except.error _ => ""
        | Except.ok none => ""
        | Except.ok (some _) =>
          match env.fileOpen with
          | Except.error _ => ""
          | Except.ok _ => runOcr env

/-- `extract_text_from_image_directly` (`ocr_utils.py`): the OCR call and
post-processing run inside a `try` whose `except` returns the empty
string.  The post-processing substitutions and line cleanup are embedded
directly. -/
def extractTextFromImageDirectly (ocrOutcome : Except String String) : String :=
  match ocrOutcome with
  | Except.error _ => ""
  | Except.ok raw =>
    let subst := raw.data.map (fun c =>
      if c == '|' then 'I'
      else if c == '[' then '(' else if c == ']' then ')'
      else if c == '\x7b' then '(' else if c == '\x7d' then ')'
      else if c == '°' then 'o' else if c == 'º' then 'o'
      else c)
    joinLines (cleanLines (String.mk subst))

/-! ## Theorems -/

/-- The sequential day-filter loop equals `List.filter` of the per-story
retention rule. -/
theorem filterCurrentDay_eq_filter (d : SimpleDate) (stories : List Story) :
    filterCurrentDayStories d stories = stories.filter (keepStory d) := by
  induction stories with
  | nil => rfl
  | cons s rest ih =>
    cases h : s.storyDate with
    | none => simp [filterCurrentDayStories, List.filter_cons, keepStory, h, ih]
    | some sd =>
      by_cases hd : sd = d.ord
      · simp [filterCurrentDayStories, List.filter_cons, keepStory, h, hd, ih]
      · by_cases hy : sd = d.ord - 1
        · cases hm : hasMenuIndicatorText s.ocrText with
          | false =>
            simp [filterCurrentDayStories, List.filter_cons, keepStory, h, hd, hy, hm, ih]
          | true =>
            cases hdt : (containsTodayFormat d s.ocrText || hasMatchingDateToken d s.ocrText) with
            | false =>
              simp only [filterCurrentDayStories, List.filter_cons, keepStory, h]
              simp [hd, hy, hm, hdt, ih]
            | true =>
              simp only [filterCurrentDayStories, List.filter_cons, keepStory, h]
              simp [hd, hy, hm, hdt, ih]
        · simp [filterCurrentDayStories, List.filter_cons, keepStory, h, hd, hy, ih]

/-- C4: For every input list of stories, the day filter (a) retains
unconditionally every story whose timestamp cannot be determined,
(b) retains every story dated today, (c) retains a story dated exactly
yesterday if and only if its eagerly-extracted OCR text contains a
menu-indicator keyword and either a rendering of today's date in one of
the listed format variants or a regex-extracted date token matching
today's day and month, and (d) drops every story older than yesterday
(as well as every other story not from today or yesterday): the
sequential filter loop equals `List.filter` of exactly that retention
rule. -/
theorem c4_day_filter_characterization (d : SimpleDate) (stories : List Story) :
    filterCurrentDayStories d stories = stories.filter (keepStory d) :=
  filterCurrentDay_eq_filter d stories

/-- Unfolding `joinLines` on a cons with non-empty tail. -/
theorem joinLines_cons (a : String) (l : List String) (h : l ≠ []) :
    joinLines (a :: l) = a ++ "\n" ++ joinLines l := by
  cases l with
  | nil => exact absurd rfl h
  | cons b rest => rfl

/-- Joining a concatenation of two non-empty line lists splits on the
separator. -/
theorem joinLines_append (xs ys : List String) (hx : xs ≠ []) (hy : ys ≠ []) :
    joinLines (xs ++ ys) = joinLines xs ++ "\n" ++ joinLines ys := by
  induction xs with
  | nil => exact absurd rfl hx
  | cons a xs ih =>
    cases xs with
    | nil =>
      rw [List.singleton_append, joinLines_cons a ys hy]
      rfl
    | cons b xs =>
      have e1 : (a :: b :: xs) ++ ys = a :: ((b :: xs) ++ ys) := rfl
      rw [e1, joinLines_cons a _ (by simp), ih (by simp),
        joinLines_cons a (b :: xs) (by simp)]
      simp [String.append_assoc]

/-- A line is a recognized dessert-section header (not boilerplate, and
the first matching section is `dessert`). -/
def isDessertHeaderLine (l : String) : Bool :=
  let low := strTrim (strLower l)
  !isBoilerplateLine low &&
    (match sectionOfLine low with
     | some Sect.dessert => true
     | _ => false)

/-- A line that does not change the section state: boilerplate, or
matching no section header. -/
def isDessertNeutralLine (l : String) : Bool :=
  let low := strTrim (strLower l)
  isBoilerplateLine low ||
    (match sectionOfLine low with
     | none => true
     | some _ => false)

/-- While the state machine sits in the dessert section, a neutral line
changes nothing: dessert dishes are never recorded
(`sections_data` has no `"dessert"` key). -/
theorem sectStep_dessert_neutral (data : SecData) (l : String)
    (h : isDessertNeutralLine l = true) :
    sectStep (some Sect.dessert, data) l = (some Sect.dessert, data) := by
  unfold sectStep
  unfold isDessertNeutralLine at h
  cases hb : isBoilerplateLine (strTrim (strLower l)) with
  | true => simp [hb]
  | false =>
    simp only [hb, Bool.false_or] at h
    cases hs : sectionOfLine (strTrim (strLower l)) with
    | none =>
      simp only [hb, hs]
      by_cases hl : l.length > 3 <;> simp [hl, addDish]
    | some sec => simp [hb, hs] at h

/-- Folding the state machine over neutral lines from the dessert state is
the identity. -/
theorem foldl_sectStep_dessert (mid : List String) (data : SecData)
    (h : ∀ l ∈ mid, isDessertNeutralLine l = true) :
    mid.foldl sectStep (some Sect.dessert, data) = (some Sect.dessert, data) := by
  induction mid with
  | nil => rfl
  | cons l mid ih =>
    rw [List.foldl_cons, sectStep_dessert_neutral data l (h l (by simp))]
    exact ih (fun x hx => h x (by simp [hx]))

/-- A dessert-header line sends any state to the dessert state without
touching the collected sections. -/
theorem sectStep_dessert_header (acc : Option Sect × SecData) (hdr : String)
    (h : isDessertHeaderLine hdr = true) :
    sectStep acc hdr = (some Sect.dessert, acc.2) := by
  unfold sectStep
  unfold isDessertHeaderLine at h
  cases hb : isBoilerplateLine (strTrim (strLower hdr)) with
  | true => simp [hb] at h
  | false =>
    simp only [hb, Bool.not_false, Bool.true_and] at h
    cases hs : sectionOfLine (strTrim (strLower hdr)) with
    | none => simp [hs] at h
    | some sec =>
      cases sec <;> simp_all [hb, hs]

/-- C5: every formatted menu ends with the fixed synthesized dessert block
(`Frutta fresca` / `Dessert del giorno` under the dessert header), and
content lines following a dessert header in the source text never
influence the output: deleting them leaves the formatted menu unchanged.
Dessert content parsed from the source therefore never appears. -/
theorem c5_dessert_block_synthesized (d : SimpleDate) (text caf meal : String) :
    (∃ p, processMenuText d text caf meal = p ++ joinLines dessertLines) ∧
    (∀ pre hdr mid post, isDessertHeaderLine hdr = true →
      (∀ l ∈ mid, isDessertNeutralLine l = true) →
      renderMenuLines d (pre ++ hdr :: (mid ++ post)) =
        renderMenuLines d (pre ++ hdr :: post)) := by
  constructor
  · unfold processMenuText renderMenuLines
    refine ⟨joinLines (("*" ++ dateDmy d ++ "*") :: "" ::
      (sectionBlock Sect.primi (collectedSecData (cleanLines text)).primi ++
       sectionBlock Sect.secondi (collectedSecData (cleanLines text)).secondi ++
       sectionBlock Sect.contorni (collectedSecData (cleanLines text)).contorni)) ++ "\n", ?_⟩
    rw [show ("*" ++ dateDmy d ++ "*") :: "" ::
        (sectionBlock Sect.primi (collectedSecData (cleanLines text)).primi ++
         sectionBlock Sect.secondi (collectedSecData (cleanLines text)).secondi ++
         sectionBlock Sect.contorni (collectedSecData (cleanLines text)).contorni ++
         dessertLines) =
        (("*" ++ dateDmy d ++ "*") :: "" ::
        (sectionBlock Sect.primi (collectedSecData (cleanLines text)).primi ++
         sectionBlock Sect.secondi (collectedSecData (cleanLines text)).secondi ++
         sectionBlock Sect.contorni (collectedSecData (cleanLines text)).contorni)) ++
        dessertLines from by simp]
    rw [joinLines_append _ _ (by simp) (by simp [dessertLines])]
  · intro pre hdr mid post hhdr hmid
    unfold renderMenuLines collectedSecData
    have key : (pre ++ hdr :: (mid ++ post)).foldl sectStep (none, emptySecData) =
        (pre ++ hdr :: post).foldl sectStep (none, emptySecData) := by
      rw [List.foldl_append, List.foldl_append, List.foldl_cons, List.foldl_cons,
        sectStep_dessert_header _ _ hhdr, List.foldl_append,
        foldl_sectStep_dessert mid _ hmid]
    rw [key]

/-- Witness for C5 at a concrete input: the line following a dessert
header (`"Frutta"`) is deleted without changing the formatted menu. -/
theorem c5_dessert_block_synthesized_witness :
    renderMenuLines ⟨1000, 12, 10, 2025⟩
        (["Primi Piatti"] ++ "Frutta" :: (["Torta di mele"] ++ ["Pasta al pomodoro"])) =
      renderMenuLines ⟨1000, 12, 10, 2025⟩
        (["Primi Piatti"] ++ "Frutta" :: ["Pasta al pomodoro"]) :=
  (c5_dessert_block_synthesized ⟨1000, 12, 10, 2025⟩ "" "Perrone" "pranzo").2
    ["Primi Piatti"] "Frutta" ["Torta di mele"] ["Pasta al pomodoro"]
    (by decide)
    (by
      intro l hl
      rw [List.mem_singleton] at hl
      subst hl
      decide)

/-- C6: once the attempt counter has reached the ceiling of 3, `login`
returns failure immediately with no backoff sleep and no network login;
and a retry call (attempt number `n = attempts + 1 > 1`) below the
ceiling sleeps exactly `5 * 2 ^ (n - 2)` seconds. -/
theorem c6_login_backoff (st : LoginState) (env : LoginEnv) :
    (st.attempts ≥ 3 → login st env = ⟨false, st, [], false⟩) ∧
    (st.demo = false → st.backoff = 5 → st.attempts < 3 → 1 ≤ st.attempts →
      (login st env).sleeps = [5 * 2 ^ (st.attempts + 1 - 2)]) := by
  constructor
  · intro h
    unfold login
    cases hd : st.demo with
    | true => simp [hd]
    | false => simp [hd, h]
  · intro hd hb hlt hge
    unfold login
    have h1 : ¬ st.attempts ≥ 3 := Nat.not_le.mpr hlt
    have h2 : st.attempts + 1 > 1 := Nat.lt_of_lt_of_le Nat.one_lt_two
      (Nat.add_le_add_right hge 1)
    cases hs : env.sessionExists && env.sessionValid with
    | true => simp [hd, h1, h2, hs, hb]
    | false =>
      cases hc : env.credsOk with
      | true =>
        cases hn : env.netOk with
        | true => simp [hd, h1, h2, hs, hc, hn, hb]
        | false => simp [hd, h1, h2, hs, hc, hn, hb]
      | false => simp [hd, h1, h2, hs, hc, hb]

/-- Witness for C6: at the ceiling the call fails with no sleep; a second
attempt (counter 1) sleeps `5 * 2 ^ 0 = 5` seconds. -/
theorem c6_login_backoff_witness :
    login ⟨3, 5, false, false⟩ ⟨true, true, true, true⟩ =
        ⟨false, ⟨3, 5, false, false⟩, [], false⟩ ∧
      (login ⟨1, 5, false, false⟩ ⟨true, true, true, true⟩).sleeps = [5 * 2 ^ 0] :=
  ⟨(c6_login_backoff ⟨3, 5, false, false⟩ ⟨true, true, true, true⟩).1 (by decide),
   (c6_login_backoff ⟨1, 5, false, false⟩ ⟨true, true, true, true⟩).2 rfl rfl
     (by decide) (by decide)⟩

/-- C7: looking up a menu under a legacy cafeteria name returns exactly
the same string as looking it up under the corresponding canonical name,
for every state of the menu table and every meal type. -/
theorem c7_legacy_name_equivalence (menus fetched : Table) (mealType L C : String)
    (h : alGet nameMapping L = some C) :
    (instApiGetMenu menus fetched L mealType).1 =
      (instApiGetMenu menus fetched C mealType).1 := by
  simp only [nameMapping, alGet] at h
  split at h
  · next hL =>
    have hL2 : "Central" = L := eq_of_beq hL
    subst hL2
    rw [Option.some_inj] at h
    subst h
    rfl
  · split at h
    · next hL =>
      have hL2 : "Sobrero" = L := eq_of_beq hL
      subst hL2
      rw [Option.some_inj] at h
      subst h
      rfl
    · split at h
      · next hL =>
        have hL2 : "Corso Duca" = L := eq_of_beq hL
        subst hL2
        rw [Option.some_inj] at h
        subst h
        rfl
      · exact absurd h (by simp)

/-- Witness for C7 at a concrete legacy name and table state. -/
theorem c7_legacy_name_equivalence_witness :
    (instApiGetMenu [("Principe Amedeo", [("pranzo", "m1"), ("cena", "m2")])] []
        "Central" "pranzo").1 =
      (instApiGetMenu [("Principe Amedeo", [("pranzo", "m1"), ("cena", "m2")])] []
        "Principe Amedeo" "pranzo").1 :=
  c7_legacy_name_equivalence [("Principe Amedeo", [("pranzo", "m1"), ("cena", "m2")])]
    [] "pranzo" "Central" "Principe Amedeo" rfl

/-- The table in which every cell carries the `"No menu posted today"`
sentinel. -/
def noMenuPostedTable : Table :=
  cafeterias.map (fun c =>
    (c, [("pranzo", "No menu posted today"), ("cena", "No menu posted today")]))

/-- Every generated placeholder menu starts with the plate emoji, whose
first character differs from the sentinel's. -/
theorem generatePlaceholderMenu_head (d : SimpleDate) (caf m r : String) :
    (generatePlaceholderMenu d caf m r).data.head? = some 'ð' := by
  unfold generatePlaceholderMenu
  have hp : plateEmoji.data = 'ð' :: ['Ÿ', '½', 'ï', '¸'] := rfl
  simp [String.data_append, hp]

/-- C8: when the fetch cycle is logged in, the user id resolves, no
exception occurs, and the story listing succeeds with the empty list,
`fetch_menus` returns the table in which every cafeteria/meal cell is the
`"No menu posted today"` sentinel — which is not a generated placeholder
menu (placeholders start with the plate emoji). -/
theorem c8_empty_story_list (env : FetchEnv) (uid : String)
    (h1 : env.demo = false) (h2 : env.loggedIn = true) (h3 : env.fatalError = none)
    (h4 : env.userId = some uid) (h5 : env.stories = []) :
    fetchMenus env = noMenuPostedTable ∧
    ∀ caf m r, generatePlaceholderMenu env.today caf m r ≠ "No menu posted today" := by
  constructor
  · unfold fetchMenus
    rw [h1, h2, h3, h4, h5]
    simp only [Bool.not_true, Bool.false_and, Bool.false_eq_true, if_false,
      List.isEmpty_nil, if_true]
    decide
  · intro caf m r heq
    have hh : (generatePlaceholderMenu env.today caf m r).data.head? = some 'N' := by
      rw [heq]
      decide
    rw [generatePlaceholderMenu_head] at hh
    simp at hh

/-- Witness for C8 at a fully concrete environment. -/
theorem c8_empty_story_list_witness :
    fetchMenus ⟨⟨1000, 12, 10, 2025⟩, false, true, true, none,
        some "44062439959", [], true⟩ = noMenuPostedTable :=
  (c8_empty_story_list ⟨⟨1000, 12, 10, 2025⟩, false, true, true, none,
    some "44062439959", [], true⟩ "44062439959" rfl rfl rfl rfl rfl).1

/-- C9: per-story text extraction is total and returns the empty string on
every failure — OCR engine unavailable, OCR exception (cache miss), failed
story download, and the `ocr_utils` variant on an OCR exception — and a
story whose extraction produced no text is skipped without affecting the
processing of the remaining stories in the batch. -/
theorem c9_extraction_failure_is_empty :
    (∀ env : ExtractEnv, env.tesseractOk = false → extractTextFromStory env = "") ∧
    (∀ (env : ExtractEnv) (e : String), env.cachedText = none →
      env.ocrResult = Except.error e → extractTextFromStory env = "") ∧
    (∀ (env : ExtractEnv) (e : String), env.cachedText = none →
      env.thumbnailUrl = none → env.mediaUrls = [] →
      env.storyDownload = Except.error e → extractTextFromStory env = "") ∧
    (∀ e : String, extractTextFromImageDirectly (Except.error e) = "") ∧
    (∀ (d : SimpleDate) (pre : List Story) (s : Story) (post : List Story),
      s.ocrText = "" →
      extractMenusFromStories d (pre ++ s :: post) =
        extractMenusFromStories d (pre ++ post)) := by
  refine ⟨?_, ?_, ?_, ?_, ?_⟩
  · intro env h
    unfold extractTextFromStory
    rw [h]
    rfl
  · intro env e h1 h2
    unfold extractTextFromStory viaHttp runOcr
    rw [h1, h2]
    cases ht : env.tesseractOk with
    | false => rfl
    | true =>
      cases hth : env.thumbnailUrl with
      | some u =>
        simp only
        cases hh : env.httpStatus with
        | error _ => rfl
        | ok code => by_cases hc : code == 200 <;> simp [hc]
      | none =>
        cases hu : env.mediaUrls with
        | cons a l =>
          simp only
          cases hh : env.httpStatus with
          | error _ => rfl
          | ok code => by_cases hc : code == 200 <;> simp [hc]
        | nil =>
          cases hd : env.storyDownload with
          | error _ => rfl
          | ok p =>
            cases p with
            | none => rfl
            | some q =>
              cases hf : env.fileOpen with
              | error _ => rfl
              | ok _ => rfl
  · intro env e h1 h2 h3 h4
    unfold extractTextFromStory
    rw [h1, h2, h3, h4]
    cases ht : env.tesseractOk <;> rfl
  · intro e
    rfl
  · intro d pre s post h
    unfold extractMenusFromStories
    rw [filterCurrentDay_eq_filter, filterCurrentDay_eq_filter,
      List.filter_append, List.filter_append, List.filter_cons]
    cases hk : keepStory d s with
    | false => simp
    | true => simp [List.filterMap_append, h]

/-- Witness for C9: concrete failing environments yield the empty string,
and a concrete empty-text story drops out of the batch. -/
theorem c9_extraction_failure_is_empty_witness :
    extractTextFromStory ⟨false, none, none, [], Except.ok none, Except.ok (),
        Except.ok 200, Except.ok "text"⟩ = "" ∧
    extractTextFromStory ⟨true, none, some "u", [], Except.ok none, Except.ok (),
        Except.ok 200, Except.error "ocr failed"⟩ = "" ∧
    extractMenusFromStories ⟨1000, 12, 10, 2025⟩
        ([] ++ (⟨some 1000, ""⟩ : Story) :: []) =
      extractMenusFromStories ⟨1000, 12, 10, 2025⟩ ([] ++ []) :=
  ⟨c9_extraction_failure_is_empty.1 ⟨false, none, none, [], Except.ok none,
      Except.ok (), Except.ok 200, Except.ok "text"⟩ rfl,
   c9_extraction_failure_is_empty.2.1 ⟨true, none, some "u", [], Except.ok none,
      Except.ok (), Except.ok 200, Except.error "ocr failed"⟩ "ocr failed" rfl rfl,
   c9_extraction_failure_is_empty.2.2.2.2 ⟨1000, 12, 10, 2025⟩ [] ⟨some 1000, ""⟩ [] rfl⟩

/-- The fetch environment of the C1 failing run: logged in, OCR
available, one current-day story carrying a Castelfidardo lunch menu. -/
def c1FailingEnv : FetchEnv :=
  ⟨⟨1000, 12, 10, 2025⟩, false, true, true, none, some "44062439959",
   [⟨some 1000, "Mensa Castelfidardo\nPranzo\nPrimi Piatti\nPasta al pomodoro"⟩], true⟩

/-- C1 (code bug): on the successful-extraction path, cells that received
no extracted menu are left as the **empty string** — not filled with a
placeholder menu.  After `_extract_menus_from_stories` returns its
accumulator (which always contains all 4 cafeterias, with unfilled cells
`""`), `fetch_menus` overwrites every cafeteria's sentinel row, so the
`missing_cafeterias` check — which compares against the already
overwritten `"Menu pranzo not available"` sentinels — never fires.  Here
one story yields a genuine Castelfidardo lunch menu while the
`Perrone`/`cena` cell of the returned table is the empty string. -/
theorem c1_empty_cells_not_placeholder_filled :
    getCell (fetchMenus c1FailingEnv) "Perrone" "cena" = some "" ∧
    getCell (fetchMenus c1FailingEnv) "Castelfidardo" "pranzo" ≠ some "" ∧
    getCell (fetchMenus c1FailingEnv) "Perrone" "cena" ≠
      some (generatePlaceholderMenu c1FailingEnv.today "Perrone" "cena" "") := by
  refine ⟨by decide, by decide, by decide⟩

/-- The story text of the C3 failing input: generic menu indicators,
no cafeteria alias keyword. -/
def c3UnmatchedText : String := "Primi Piatti\nPasta al pomodoro"

/-- C3 (code bug): during the extraction pass the accumulator is
initialized with **all four cafeterias as keys** (cells `""`), so the
last-resort fallback of `_identify_cafeteria_from_text` — which assigns
the first cafeteria *not present as a key* of the accumulator — can never
fire there: a story with generic menu indicators but no cafeteria keyword
is classified `none` and discarded, leaving the accumulator unchanged.
With an empty accumulator (the function's own default) the same text
would be assigned to the first canonical cafeteria. -/
theorem c3_fallback_dead_in_extraction_pass :
    identifyCafeteriaFromText c3UnmatchedText emptyExtractedMenus = none ∧
    identifyCafeteriaFromText c3UnmatchedText [] = some "Principe Amedeo" ∧
    extractMenusFromStories ⟨1000, 12, 10, 2025⟩ [⟨some 1000, c3UnmatchedText⟩] =
      emptyExtractedMenus := by
  refine ⟨by decide, by decide, by decide⟩

/-- C2 counterexample: with every attempt returning (without exception) a
table of zero genuinely-extracted menus, the caller performs its retries
with the fixed 5-second delay but then accepts the **last fetched table
itself** — which is not the synthesized-placeholder table the claim
promises. -/
theorem c2_no_placeholder_fallback_counterexample :
    fetchDailyMenus ⟨1000, 12, 10, 2025⟩ (fun _ => Except.ok initMenusTable) [] =
      (initMenusTable, [5, 5]) ∧
    initMenusTable ≠ placeholderFallbackTable ⟨1000, 12, 10, 2025⟩ := by
  refine ⟨by decide, by decide⟩

/-- C2 amended: `fetch_daily_menus` makes up to 3 total `fetch_menus`
attempts with a fixed 5-second delay between consecutive attempts; when
every attempt returns (without raising) a table with zero genuine menus,
the accepted result is the table of the **last** attempt — synthesized
placeholders are installed only when the stored table is empty, which
requires every attempt to have raised. -/
theorem c2_retry_accepts_last_fetched_table (d : SimpleDate)
    (fetches : Nat → Except String Table) (t1 t2 t3 init : Table)
    (h1 : fetches 0 = Except.ok t1) (h2 : fetches 1 = Except.ok t2)
    (h3 : fetches 2 = Except.ok t3)
    (g1 : genuineCount t1 = 0) (g2 : genuineCount t2 = 0) (g3 : genuineCount t3 = 0)
    (hne : t3 ≠ []) :
    fetchDailyMenus d fetches init = (t3, [5, 5]) := by
  have he : t3.isEmpty = false := by
    cases t3 with
    | nil => exact absurd rfl hne
    | cons a l => rfl
  unfold fetchDailyMenus
  unfold fetchDailyGo
  rw [h1]
  simp only [g1, gt_iff_lt, Nat.lt_irrefl, if_false, Nat.zero_add]
  unfold fetchDailyGo
  rw [h2]
  simp only [g2, gt_iff_lt, Nat.lt_irrefl, if_false]
  unfold fetchDailyGo
  rw [h3]
  simp only [g3, gt_iff_lt, Nat.lt_irrefl, if_false]
  unfold fetchDailyGo
  simp [he]

/-- Witness for C2's amended retry behavior at concrete tables whose cells
carry `"Error"` markers. -/
theorem c2_retry_accepts_last_fetched_table_witness :
    fetchDailyMenus ⟨1000, 12, 10, 2025⟩
        (fun _ => Except.ok [("Principe Amedeo", [("pranzo", "Error fetching")])]) [] =
      ([("Principe Amedeo", [("pranzo", "Error fetching")])], [5, 5]) :=
  c2_retry_accepts_last_fetched_table ⟨1000, 12, 10, 2025⟩ _
    [("Principe Amedeo", [("pranzo", "Error fetching")])]
    [("Principe Amedeo", [("pranzo", "Error fetching")])]
    [("Principe Amedeo", [("pranzo", "Error fetching")])] []
    rfl rfl rfl (by decide) (by decide) (by decide) (by decide)

/-- C10 counterexample: when the stored menu table is empty, looking up an
unknown cafeteria returns the sentinel but **modifies the stored table**
(the empty table triggers a fetch whose result is installed). -/
theorem c10_empty_table_is_modified_counterexample :
    (appGetMenu [] initMenusTable "Nowhere" "pranzo").1 =
      "Menu not available for this cafeteria/meal" ∧
    (appGetMenu [] initMenusTable "Nowhere" "pranzo").2 ≠ ([] : Table) := by
  refine ⟨by decide, by decide⟩

/-- C10 amended: provided the stored menu table is non-empty, `get_menu`
on a cafeteria name absent from the table — or a meal type absent from the
cafeteria's entry — returns the
`"Menu not available for this cafeteria/meal"` sentinel and leaves the
stored table unchanged. -/
theorem c10_unknown_lookup_sentinel (menus fetched : Table) (name mealType : String)
    (hne : menus ≠ [])
    (h : alGet menus name = none ∨
      ∃ mm, alGet menus name = some mm ∧ alGet mm mealType = none) :
    appGetMenu menus fetched name mealType =
      ("Menu not available for this cafeteria/meal", menus) := by
  have he : menus.isEmpty = false := by
    cases menus with
    | nil => exact absurd rfl hne
    | cons a l => rfl
  unfold appGetMenu
  rcases h with h | ⟨mm, hm1, hm2⟩
  · simp [he, h, alGet]
  · simp [he, hm1, hm2]

/-- Witness for C10's amended lookup behavior. -/
theorem c10_unknown_lookup_sentinel_witness :
    appGetMenu [("Principe Amedeo", [("pranzo", "x")])] [] "Nowhere" "cena" =
      ("Menu not available for this cafeteria/meal",
       [("Principe Amedeo", [("pranzo", "x")])]) :=
  c10_unknown_lookup_sentinel [("Principe Amedeo", [("pranzo", "x")])] [] "Nowhere"
    "cena" (by decide) (Or.inl (by decide))

end EdisuMensa
